import Mathlib

/-!
Verification development for the Hypercave front-end core
(cache layer in `src/cache.js`, manifest builders in `manifests.js`,
controller guards in `src/main.js`).

The JavaScript source is shallowly embedded:
* `localStorage` and the session `Map` are modelled as association lists
  from string keys to stored items; time (`Date.now()`) is passed
  explicitly as a `Nat` parameter.
* A JavaScript numeric TTL/expiry value, which is either a finite number
  of milliseconds or the sentinel `Infinity`, is modelled by `JsNum`.
* The persistent tier serializes items through
  `JSON.stringify`/`JSON.parse` (cache.js lines 46 and 20).  Finite
  numbers and serializable values round-trip exactly, but JSON has no
  representation for `Infinity`: `JSON.stringify(Infinity)` emits
  `null`.  The model therefore stores a `StoredExpiry` (finite number
  or null) in the persistent tier, while the in-memory session `Map`
  keeps the unserialized `JsNum`.
* Stateful operations return the updated store together with their
  result, so the self-eviction performed by `get` is observable.
-/

namespace Hypercave

/-- A JavaScript non-negative numeric value that is either finite or the
sentinel `Infinity`; used for TTLs and expiry timestamps. -/
inductive JsNum where
  | fin (t : Nat) : JsNum
  | inf : JsNum
deriving DecidableEq, Repr

/-- Models `Date.now() + ttlMs` (cache.js line 44 / 111): adding a finite `now`
to a `JsNum` TTL; `now + Infinity = Infinity` in JavaScript. -/
def JsNum.addTo (now : Nat) : JsNum → JsNum
  | fin t => fin (now + t)
  | inf => inf

/-- A cache item `{ value, expiry }` as held in the in-memory session
`Map` (cache.js lines 109-112), with the expiry number unserialized. -/
structure CacheItem (α : Type) where
  value : α
  expiry : JsNum
deriving DecidableEq, Repr

/-- The test `expiry !== Infinity && Date.now() > expiry` on an
unserialized expiry (cache.js line 94, session tier). -/
def isExpiredAt (now : Nat) : JsNum → Bool
  | JsNum.fin e => now > e
  | JsNum.inf => false

/-- An expiry value as it comes back from the JSON round trip of the
persistent tier: a finite number round-trips exactly, while the
sentinel `Infinity` has no JSON representation and `JSON.stringify`
emits `null` for it. -/
inductive StoredExpiry where
  | num (t : Nat) : StoredExpiry
  | null : StoredExpiry
deriving DecidableEq, Repr

/-- Models the effect of `JSON.stringify` (cache.js line 46) followed by
`JSON.parse` (cache.js line 20) on the expiry field. -/
def jsonRoundTripExpiry : JsNum → StoredExpiry
  | JsNum.fin t => StoredExpiry.num t
  | JsNum.inf => StoredExpiry.null

/-- A persisted cache item `{ value, expiry }` after the JSON round trip
(cache.js lines 42-46 and 20); serializable values round-trip exactly
and are kept as an abstract `α`. -/
structure StoredItem (α : Type) where
  value : α
  expiry : StoredExpiry
deriving DecidableEq, Repr

/-- The test `expiry !== Infinity && Date.now() > expiry` on a PARSED
expiry (cache.js line 23, persistent tier).  A parsed finite number is
never `Infinity`, so the test is `now > e`; a parsed `null` (from a
persisted `Infinity`) is not `Infinity` either, and the comparison
`Date.now() > null` coerces `null` to `0`, so the test is `now > 0`. -/
def isExpiredAtStored (now : Nat) : StoredExpiry → Bool
  | StoredExpiry.num e => now > e
  | StoredExpiry.null => now > 0

/-- Model of a string-keyed store (`localStorage`, or the session `Map`):
an association list whose first matching key wins. -/
def KVStore (α : Type) : Type := List (String × α)

/-- Models `store.getItem(k)` / `map.get(k)`: first entry with the given key. -/
def kvGet {α : Type} : KVStore α → String → Option α
  | [], _ => none
  | (k', v) :: rest, k => if k' = k then some v else kvGet rest k

/-- Models `store.setItem(k, v)` / `map.set(k, v)`: replace the entry for `k`
if present, otherwise append a new entry. -/
def kvSet {α : Type} : KVStore α → String → α → KVStore α
  | [], k, v => [(k, v)]
  | (k', v') :: rest, k, v =>
      if k' = k then (k, v) :: rest else (k', v') :: kvSet rest k v

/-- Models `store.removeItem(k)` / `map.delete(k)`: drop every entry for `k`. -/
def kvRemove {α : Type} : KVStore α → String → KVStore α
  | [], _ => []
  | (k', v) :: rest, k =>
      if k' = k then kvRemove rest k else (k', v) :: kvRemove rest k

/-- The fixed namespace `"hypercave_"` prepended to every persistent
cache key (cache.js line 6). -/
def CACHE_NS : String := "hypercave_"

/-- Embeds `cache.get(key)` (cache.js lines 15-32): read and
`JSON.parse` the namespaced item, return `null` when absent, self-evict
and return `null` when the parsed expiry tests as expired, otherwise
return the stored value.  The updated `localStorage` is returned
alongside the result. -/
def cacheGet {α : Type} (now : Nat) (st : KVStore (StoredItem α)) (key : String) :
    KVStore (StoredItem α) × Option α :=
  match kvGet st (CACHE_NS ++ key) with
  | none => (st, none)
  | some item =>
      if isExpiredAtStored now item.expiry then
        (kvRemove st (CACHE_NS ++ key), none)
      else
        (st, some item.value)

/-- Embeds `cache.set(key, value, ttlMs)` (cache.js lines 40-50): store
`JSON.stringify({ value, expiry: Date.now() + ttlMs })` under the
namespaced key; the serialization maps an `Infinity` expiry to
`null`. -/
def cacheSet {α : Type} (now : Nat) (st : KVStore (StoredItem α)) (key : String)
    (value : α) (ttlMs : JsNum) : KVStore (StoredItem α) :=
  kvSet st (CACHE_NS ++ key) ⟨value, jsonRoundTripExpiry (JsNum.addTo now ttlMs)⟩

/-- Embeds `sessionCache.get(key)` (cache.js lines 89-100): same expiry logic
as `cache.get` over the in-memory `Map`, without the key namespace. -/
def sessionCacheGet {α : Type} (now : Nat) (data : KVStore (CacheItem α)) (key : String) :
    KVStore (CacheItem α) × Option α :=
  match kvGet data key with
  | none => (data, none)
  | some item =>
      if isExpiredAt now item.expiry then
        (kvRemove data key, none)
      else
        (data, some item.value)

/-- Embeds `sessionCache.set(key, value, ttlMs)` (cache.js lines 108-113). -/
def sessionCacheSet {α : Type} (now : Nat) (data : KVStore (CacheItem α)) (key : String)
    (value : α) (ttlMs : JsNum) : KVStore (CacheItem α) :=
  kvSet data key ⟨value, JsNum.addTo now ttlMs⟩

/-! ### Association-list lemmas -/

theorem kvGet_kvSet_self {α : Type} (st : KVStore α) (k : String) (v : α) :
    kvGet (kvSet st k v) k = some v := by
  induction st with
  | nil => simp [kvSet, kvGet]
  | cons kv rest ih =>
      by_cases h : kv.1 = k
      · simp [kvSet, kvGet, h]
      · simpa [kvSet, kvGet, h] using ih

theorem kvGet_kvSet_ne {α : Type} (st : KVStore α) (k k' : String) (v : α)
    (h : k ≠ k') : kvGet (kvSet st k v) k' = kvGet st k' := by
  induction st with
  | nil => simp [kvSet, kvGet, h]
  | cons kv rest ih =>
      by_cases hk : kv.1 = k
      · simp [kvSet, kvGet, hk, h]
      · simp only [kvSet, hk, if_false]
        by_cases hk' : kv.1 = k'
        · simp [kvGet, hk']
        · simpa [kvGet, hk'] using ih

theorem kvGet_kvRemove_self {α : Type} (st : KVStore α) (k : String) :
    kvGet (kvRemove st k) k = none := by
  induction st with
  | nil => simp [kvRemove, kvGet]
  | cons kv rest ih =>
      by_cases h : kv.1 = k
      · simpa [kvRemove, kvGet, h] using ih
      · simpa [kvRemove, kvGet, h] using ih

theorem kvGet_kvRemove_ne {α : Type} (st : KVStore α) (k k' : String)
    (h : k' ≠ k) : kvGet (kvRemove st k) k' = kvGet st k' := by
  induction st with
  | nil => simp [kvRemove, kvGet]
  | cons kv rest ih =>
      by_cases hk : kv.1 = k
      · have hne : k ≠ k' := fun hkk => h hkk.symm
        simpa [kvRemove, kvGet, hk, hne] using ih
      · by_cases hk' : kv.1 = k'
        · simp [kvRemove, kvGet, hk, hk', h]
        · simpa [kvRemove, kvGet, hk, hk'] using ih

theorem cacheGet_lookup {α : Type} (now : Nat) (st : KVStore (StoredItem α))
    (key : String) (it : StoredItem α) (h : kvGet st (CACHE_NS ++ key) = some it) :
    cacheGet now st key =
      if isExpiredAtStored now it.expiry then (kvRemove st (CACHE_NS ++ key), none)
      else (st, some it.value) := by
  unfold cacheGet
  rw [h]

theorem sessionCacheGet_lookup {α : Type} (now : Nat) (sd : KVStore (CacheItem α))
    (key : String) (it : CacheItem α) (h : kvGet sd key = some it) :
    sessionCacheGet now sd key =
      if isExpiredAt now it.expiry then (kvRemove sd key, none)
      else (sd, some it.value) := by
  unfold sessionCacheGet
  rw [h]

theorem isExpiredAt_fin_false {e now : Nat} (h : now ≤ e) :
    isExpiredAt now (JsNum.fin e) = false := by
  simp [isExpiredAt]; omega

theorem isExpiredAt_fin_true {e now : Nat} (h : e < now) :
    isExpiredAt now (JsNum.fin e) = true := by
  simp [isExpiredAt]; omega

theorem isExpiredAtStored_num_false {e now : Nat} (h : now ≤ e) :
    isExpiredAtStored now (StoredExpiry.num e) = false := by
  simp [isExpiredAtStored]; omega

theorem isExpiredAtStored_num_true {e now : Nat} (h : e < now) :
    isExpiredAtStored now (StoredExpiry.num e) = true := by
  simp [isExpiredAtStored]; omega

/-! ### Claims C1, C2, C6: TTL semantics of the two store tiers -/

/-- Claim C1, counterexample: the claim says an entry queried exactly at
its expiry timestamp is already expired, but the source test is
`Date.now() > expiry` (strict), so an entry with expiry `5` queried at
time `5` is still returned.  Concretely: `set` at time `0` with TTL `5`
produces the persisted entry `{value := 42, expiry := 5}` (a finite
expiry survives the JSON round trip exactly), and `get` at time `5`
returns `42`, not `null`. -/
theorem claim_C1_counterexample :
    kvGet (cacheSet 0 ([] : KVStore (StoredItem Nat)) "k" 42 (JsNum.fin 5))
        (CACHE_NS ++ "k") = some ⟨42, StoredExpiry.num 5⟩ ∧
    (cacheGet 5 (cacheSet 0 ([] : KVStore (StoredItem Nat)) "k" 42 (JsNum.fin 5)) "k").2
        = some 42 ∧
    (cacheGet 5 (cacheSet 0 ([] : KVStore (StoredItem Nat)) "k" 42 (JsNum.fin 5)) "k").2
        ≠ none := by
  refine ⟨rfl, rfl, by decide⟩

/-- Claim C1 (amended): for every cache entry with a finite expiry, in
both the persistent store and the session store, `get` returns the
stored value at every query time up to and including the expiry
timestamp, and returns `null` at every query time strictly after the
expiry timestamp; when `get` observes an expired entry it also removes
the underlying entry from the store. -/
theorem claim_C1_finite_ttl_boundary {α : Type} (st : KVStore (StoredItem α))
    (sd : KVStore (CacheItem α)) (key skey : String) (it : StoredItem α)
    (sit : CacheItem α) (e se now : Nat)
    (hc : kvGet st (CACHE_NS ++ key) = some it) (hce : it.expiry = StoredExpiry.num e)
    (hs : kvGet sd skey = some sit) (hse : sit.expiry = JsNum.fin se) :
    (now ≤ e → cacheGet now st key = (st, some it.value)) ∧
    (e < now → (cacheGet now st key).2 = none ∧
      kvGet (cacheGet now st key).1 (CACHE_NS ++ key) = none) ∧
    (now ≤ se → sessionCacheGet now sd skey = (sd, some sit.value)) ∧
    (se < now → (sessionCacheGet now sd skey).2 = none ∧
      kvGet (sessionCacheGet now sd skey).1 skey = none) := by
  refine ⟨?_, ?_, ?_, ?_⟩
  · intro h
    rw [cacheGet_lookup now st key it hc, hce]
    simp [isExpiredAtStored_num_false h]
  · intro h
    rw [cacheGet_lookup now st key it hc, hce]
    simp [isExpiredAtStored_num_true h, kvGet_kvRemove_self]
  · intro h
    rw [sessionCacheGet_lookup now sd skey sit hs, hse]
    simp [isExpiredAt_fin_false h]
  · intro h
    rw [sessionCacheGet_lookup now sd skey sit hs, hse]
    simp [isExpiredAt_fin_true h, kvGet_kvRemove_self]

/-- Witness for the amended claim C1, at the concrete stores obtained by
`cache.set` at time 0 with TTL 5 and `sessionCache.set` at time 0 with
TTL 3, queried at time 9 (after both expiries). -/
theorem claim_C1_finite_ttl_boundary_witness :
    (kvGet (cacheSet 0 ([] : KVStore (StoredItem Nat)) "k" 42 (JsNum.fin 5))
        (CACHE_NS ++ "k") = some ⟨42, StoredExpiry.num 5⟩) ∧
    ((⟨42, StoredExpiry.num 5⟩ : StoredItem Nat).expiry = StoredExpiry.num 5) ∧
    (kvGet (sessionCacheSet 0 ([] : KVStore (CacheItem Nat)) "s" 7 (JsNum.fin 3)) "s"
        = some ⟨7, JsNum.fin 3⟩) ∧
    ((⟨7, JsNum.fin 3⟩ : CacheItem Nat).expiry = JsNum.fin 3) ∧
    ((9 ≤ 5 → cacheGet 9 (cacheSet 0 ([] : KVStore (StoredItem Nat)) "k" 42 (JsNum.fin 5)) "k"
        = (cacheSet 0 ([] : KVStore (StoredItem Nat)) "k" 42 (JsNum.fin 5),
           some (⟨42, StoredExpiry.num 5⟩ : StoredItem Nat).value)) ∧
     (5 < 9 → (cacheGet 9 (cacheSet 0 ([] : KVStore (StoredItem Nat)) "k" 42 (JsNum.fin 5)) "k").2
        = none ∧
       kvGet (cacheGet 9 (cacheSet 0 ([] : KVStore (StoredItem Nat)) "k" 42 (JsNum.fin 5)) "k").1
        (CACHE_NS ++ "k") = none) ∧
     (9 ≤ 3 → sessionCacheGet 9 (sessionCacheSet 0 ([] : KVStore (CacheItem Nat)) "s" 7 (JsNum.fin 3)) "s"
        = (sessionCacheSet 0 ([] : KVStore (CacheItem Nat)) "s" 7 (JsNum.fin 3),
           some (⟨7, JsNum.fin 3⟩ : CacheItem Nat).value)) ∧
     (3 < 9 → (sessionCacheGet 9 (sessionCacheSet 0 ([] : KVStore (CacheItem Nat)) "s" 7 (JsNum.fin 3)) "s").2
        = none ∧
       kvGet (sessionCacheGet 9 (sessionCacheSet 0 ([] : KVStore (CacheItem Nat)) "s" 7 (JsNum.fin 3)) "s").1
        "s" = none)) :=
  ⟨rfl, rfl, rfl, rfl,
   claim_C1_finite_ttl_boundary
     (cacheSet 0 ([] : KVStore (StoredItem Nat)) "k" 42 (JsNum.fin 5))
     (sessionCacheSet 0 ([] : KVStore (CacheItem Nat)) "s" 7 (JsNum.fin 3))
     "k" "s" ⟨42, StoredExpiry.num 5⟩ ⟨7, JsNum.fin 3⟩ 5 3 9 rfl rfl rfl rfl⟩

/-- Claim C2 (code bug): the session-store half of the claim holds — an
entry set in the in-memory `Map` with the Infinity sentinel never
expires, at every later query time.  The persistent half fails on the
code: `JSON.stringify` (cache.js line 46) serializes the Infinity
expiry as `null`, the parsed entry therefore tests as expired at every
query time ≥ 1 (`null !== Infinity`, and `Date.now() > null` coerces
`null` to `0`), so the entry set at time 0 with TTL Infinity is evicted
and `null` is returned by `get` at time 1 — although the comment on
cache.js line 22 promises that an Infinity expiry never expires. -/
theorem claim_C2_infinite_ttl_divergence :
    (∀ (α : Type) (sd : KVStore (CacheItem α)) (skey : String) (w : α)
       (tset tget : Nat),
      (sessionCacheGet tget (sessionCacheSet tset sd skey w JsNum.inf) skey).2
        = some w) ∧
    jsonRoundTripExpiry (JsNum.addTo 0 JsNum.inf) = StoredExpiry.null ∧
    kvGet (cacheSet 0 ([] : KVStore (StoredItem Nat)) "k" 42 JsNum.inf)
      (CACHE_NS ++ "k") = some ⟨42, StoredExpiry.null⟩ ∧
    (cacheGet 1 (cacheSet 0 ([] : KVStore (StoredItem Nat)) "k" 42 JsNum.inf) "k").2
      = none ∧
    kvGet (cacheGet 1 (cacheSet 0 ([] : KVStore (StoredItem Nat)) "k" 42 JsNum.inf) "k").1
      (CACHE_NS ++ "k") = none := by
  refine ⟨?_, rfl, rfl, rfl, rfl⟩
  intro α sd skey w tset tget
  unfold sessionCacheSet
  rw [sessionCacheGet_lookup tget _ skey ⟨w, JsNum.addTo tset JsNum.inf⟩
    (kvGet_kvSet_self sd skey ⟨w, JsNum.addTo tset JsNum.inf⟩)]
  simp [JsNum.addTo, isExpiredAt]

/-- Claim C6 (code bug): `set(key, value, ttl)` immediately followed by
`get(key)` (same clock reading) returns exactly the value set, in both
store tiers for every finite positive TTL, and in the session tier also
for the Infinity sentinel.  But in the persistent tier the claim fails
at TTL = Infinity: the serialized expiry is `null`, so the immediate
`get` at clock reading 1 already treats the entry as expired and
returns `null` instead of the value set — the same serialization bug
as claim C2. -/
theorem claim_C6_set_then_get_divergence {α : Type} (st : KVStore (StoredItem α))
    (sd : KVStore (CacheItem α)) (key skey : String) (v w : α) (now now2 : Nat)
    (t t2 : Nat) (h : 0 < t) (h2 : 0 < t2) :
    (cacheGet now (cacheSet now st key v (JsNum.fin t)) key).2 = some v ∧
    (sessionCacheGet now2 (sessionCacheSet now2 sd skey w (JsNum.fin t2)) skey).2
      = some w ∧
    (sessionCacheGet now2 (sessionCacheSet now2 sd skey w JsNum.inf) skey).2
      = some w ∧
    (cacheGet 1 (cacheSet 1 ([] : KVStore (StoredItem Nat)) "k" 42 JsNum.inf) "k").2
      = none := by
  refine ⟨?_, ?_, ?_, rfl⟩
  · unfold cacheSet
    rw [cacheGet_lookup now _ key ⟨v, jsonRoundTripExpiry (JsNum.addTo now (JsNum.fin t))⟩
      (kvGet_kvSet_self st (CACHE_NS ++ key)
        ⟨v, jsonRoundTripExpiry (JsNum.addTo now (JsNum.fin t))⟩)]
    have hx : isExpiredAtStored now (jsonRoundTripExpiry (JsNum.addTo now (JsNum.fin t)))
        = false := by
      show isExpiredAtStored now (StoredExpiry.num (now + t)) = false
      exact isExpiredAtStored_num_false (Nat.le_add_right now t)
    simp [hx]
  · unfold sessionCacheSet
    rw [sessionCacheGet_lookup now2 _ skey ⟨w, JsNum.addTo now2 (JsNum.fin t2)⟩
      (kvGet_kvSet_self sd skey ⟨w, JsNum.addTo now2 (JsNum.fin t2)⟩)]
    have hx : isExpiredAt now2 (JsNum.addTo now2 (JsNum.fin t2)) = false :=
      isExpiredAt_fin_false (Nat.le_add_right now2 t2)
    simp [hx]
  · unfold sessionCacheSet
    rw [sessionCacheGet_lookup now2 _ skey ⟨w, JsNum.addTo now2 JsNum.inf⟩
      (kvGet_kvSet_self sd skey ⟨w, JsNum.addTo now2 JsNum.inf⟩)]
    simp [JsNum.addTo, isExpiredAt]

/-- Witness for claim C6 at a concrete input: TTL 1000ms in the
persistent store at clock 17, TTL 60000ms and TTL Infinity in the
session store at clock 99. -/
theorem claim_C6_set_then_get_divergence_witness :
    (0 < 1000) ∧ (0 < 60000) ∧
    ((cacheGet 17 (cacheSet 17 ([] : KVStore (StoredItem Nat)) "k" 42 (JsNum.fin 1000)) "k").2
        = some 42 ∧
     (sessionCacheGet 99 (sessionCacheSet 99 ([] : KVStore (CacheItem Nat)) "s" 7 (JsNum.fin 60000)) "s").2
        = some 7 ∧
     (sessionCacheGet 99 (sessionCacheSet 99 ([] : KVStore (CacheItem Nat)) "s" 7 JsNum.inf) "s").2
        = some 7 ∧
     (cacheGet 1 (cacheSet 1 ([] : KVStore (StoredItem Nat)) "k" 42 JsNum.inf) "k").2
        = none) :=
  ⟨by decide, by decide,
   claim_C6_set_then_get_divergence ([] : KVStore (StoredItem Nat))
     ([] : KVStore (CacheItem Nat)) "k" "s" 42 7 17 99 1000 60000
     (by decide) (by decide)⟩

/-! ### Permanent resource registry (cache.js lines 136-205)

`permanentResourceCache` keeps one durable object keyed by ticker under
`CACHE_PREFIX + RESOURCE_CACHE_KEY`.  `getAll`/`setItem` round-trip that
object through JSON; the model works directly on the parsed object,
represented as a `KVStore ResourceEntry` with JavaScript property-update
semantics (`kvSet`). -/

/-- A registry entry `{ address, iconUrl }` (cache.js lines 160-163). -/
structure ResourceEntry where
  address : String
  iconUrl : Option String
deriving DecidableEq, Repr

/-- The JavaScript expression `x || null` applied to a string-or-null
value: `null`/`undefined` (modelled `none`) and the empty string are
falsy and give `null`; every other string is kept. -/
def jsOrNull : Option String → Option String
  | none => none
  | some s => if s = "" then none else some s

/-- An element of the argument of `addMultiple`
(cache.js lines 174-187). -/
structure PermResource where
  ticker : String
  address : String
  iconUrl : Option String
deriving DecidableEq, Repr

/-- Embeds `permanentResourceCache.add(ticker, address, iconUrl)`
(cache.js lines 157-168): `resources[ticker] = {address, iconUrl: iconUrl || null}`
merged into the existing object. -/
def permanentAdd (reg : KVStore ResourceEntry) (ticker address : String)
    (iconUrl : Option String) : KVStore ResourceEntry :=
  kvSet reg ticker ⟨address, jsOrNull iconUrl⟩

/-- Embeds `permanentResourceCache.addMultiple(resources)`
(cache.js lines 174-187): each element merged in order into the
existing object. -/
def permanentAddMultiple (reg : KVStore ResourceEntry) (rs : List PermResource) :
    KVStore ResourceEntry :=
  rs.foldl (fun c r => kvSet c r.ticker ⟨r.address, jsOrNull r.iconUrl⟩) reg

/-- Embeds `permanentResourceCache.get(ticker)` (cache.js lines 194-197):
`all[ticker] || null` (a stored entry object is always truthy). -/
def permanentGet (reg : KVStore ResourceEntry) (ticker : String) : Option ResourceEntry :=
  kvGet reg ticker

/-- Claim C7: registry writes merge last-write-wins by ticker.  After
`add("XRD", addr, null)` followed by
`addMultiple([{ticker:"XRD", address:addr2, iconUrl:"x"}])`,
`get("XRD")` returns the second write, and every other ticker keeps the
value it had in the original registry (merge, not replace). -/
theorem claim_C7_registry_last_write_wins (reg : KVStore ResourceEntry)
    (addr addr2 : String) (t : String) (ht : t ≠ "XRD") :
    permanentGet (permanentAddMultiple (permanentAdd reg "XRD" addr none)
        [⟨"XRD", addr2, some "x"⟩]) "XRD" = some ⟨addr2, some "x"⟩ ∧
    permanentGet (permanentAddMultiple (permanentAdd reg "XRD" addr none)
        [⟨"XRD", addr2, some "x"⟩]) t = permanentGet reg t := by
  have hicon : jsOrNull (some "x") = some "x" := rfl
  constructor
  · unfold permanentAddMultiple permanentGet
    simp only [List.foldl]
    rw [hicon, kvGet_kvSet_self]
  · unfold permanentAddMultiple permanentGet permanentAdd
    simp only [List.foldl]
    rw [kvGet_kvSet_ne _ _ _ _ (fun he => ht he.symm),
        kvGet_kvSet_ne _ _ _ _ (fun he => ht he.symm)]

/-- Witness for claim C7: registry previously holding ticker `"OLD"`;
the untouched ticker `"OLD"` keeps its value. -/
theorem claim_C7_registry_last_write_wins_witness :
    ("OLD" ≠ "XRD") ∧
    (permanentGet (permanentAddMultiple
        (permanentAdd [("OLD", ⟨"a0", none⟩)] "XRD" "a1" none)
        [⟨"XRD", "a2", some "x"⟩]) "XRD" = some ⟨"a2", some "x"⟩ ∧
     permanentGet (permanentAddMultiple
        (permanentAdd [("OLD", ⟨"a0", none⟩)] "XRD" "a1" none)
        [⟨"XRD", "a2", some "x"⟩]) "OLD"
       = permanentGet [("OLD", ⟨"a0", none⟩)] "OLD") :=
  ⟨by decide,
   claim_C7_registry_last_write_wins [("OLD", ⟨"a0", none⟩)] "a1" "a2" "OLD" (by decide)⟩

/-- Claim C10: when `add` or `addMultiple` receives a falsy `iconUrl`
(`null`/`undefined`, modelled `none`, or the empty string), the entry
stored for that ticker has `iconUrl` exactly `null`, so a later
`get(ticker)` returns `iconUrl = null`; an empty-string icon URL is not
preserved. -/
theorem claim_C10_falsy_iconUrl_stored_null (reg reg2 : KVStore ResourceEntry)
    (ticker addr : String) (icon : Option String)
    (h : icon = none ∨ icon = some "") :
    permanentGet (permanentAdd reg ticker addr icon) ticker = some ⟨addr, none⟩ ∧
    permanentGet (permanentAddMultiple reg2 [⟨ticker, addr, icon⟩]) ticker
      = some ⟨addr, none⟩ := by
  have hicon : jsOrNull icon = none := by
    rcases h with h | h <;> rw [h] <;> rfl
  constructor
  · unfold permanentGet permanentAdd
    rw [hicon, kvGet_kvSet_self]
  · unfold permanentGet permanentAddMultiple
    simp only [List.foldl]
    rw [hicon, kvGet_kvSet_self]

/-- Witness for claim C10 with the empty-string icon URL. -/
theorem claim_C10_falsy_iconUrl_stored_null_witness :
    ((some "" : Option String) = none ∨ (some "" : Option String) = some "") ∧
    (permanentGet (permanentAdd [] "XRD" "a1" (some "")) "XRD"
        = some ⟨"a1", none⟩ ∧
     permanentGet (permanentAddMultiple [] [⟨"XRD", "a1", some ""⟩]) "XRD"
        = some ⟨"a1", none⟩) :=
  ⟨Or.inr rfl,
   claim_C10_falsy_iconUrl_stored_null [] [] "XRD" "a1" (some "") (Or.inr rfl)⟩

/-! ### `cache.clearAll` (cache.js lines 63-72) -/

/-- JavaScript `key.startsWith(pre)`. -/
def jsStartsWith (s pre : String) : Bool :=
  pre.data.isPrefixOf s.data

/-- Embeds `cache.clearAll()` (cache.js lines 63-72): enumerate all storage
keys, collect those starting with the namespace, then remove each
collected key. -/
def cacheClearAll {α : Type} (ls : KVStore α) : KVStore α :=
  ((ls.map Prod.fst).filter (fun k => jsStartsWith k CACHE_NS)).foldl
    (fun cur k => kvRemove cur k) ls

theorem kvGet_foldl_kvRemove {α : Type} (keys : List String) (ls : KVStore α)
    (k : String) :
    kvGet (keys.foldl (fun cur key => kvRemove cur key) ls) k
      = if k ∈ keys then none else kvGet ls k := by
  induction keys generalizing ls with
  | nil => simp
  | cons k0 keys ih =>
      simp only [List.foldl]
      rw [ih (kvRemove ls k0)]
      by_cases hmem : k ∈ keys
      · simp [hmem]
      · by_cases hk : k = k0
        · subst hk
          simp [hmem, kvGet_kvRemove_self]
        · simp [hmem, hk, kvGet_kvRemove_ne ls k0 k hk]

theorem mem_map_fst_of_kvGet_some {α : Type} (ls : KVStore α) (k : String)
    (v : α) (h : kvGet ls k = some v) : k ∈ ls.map Prod.fst := by
  induction ls with
  | nil => simp [kvGet] at h
  | cons kv rest ih =>
      by_cases hk : kv.1 = k
      · simp [hk]
      · simp only [kvGet, hk, if_false] at h
        simp [ih h]

/-- Claim C8: `cache.clearAll` removes exactly the storage keys under
the fixed namespace: afterwards every namespaced key reads as absent,
and every key not under the namespace reads exactly as before. -/
theorem claim_C8_clearAll_frame {α : Type} (ls : KVStore α) (k : String) :
    (jsStartsWith k CACHE_NS = true → kvGet (cacheClearAll ls) k = none) ∧
    (jsStartsWith k CACHE_NS = false → kvGet (cacheClearAll ls) k = kvGet ls k) := by
  unfold cacheClearAll
  rw [kvGet_foldl_kvRemove]
  constructor
  · intro hpre
    by_cases hmem : k ∈ (ls.map Prod.fst).filter (fun key => jsStartsWith key CACHE_NS)
    · simp [hmem]
    · rw [if_neg hmem]
      cases hv : kvGet ls k with
      | none => rfl
      | some v =>
          exact absurd (List.mem_filter.mpr
            ⟨mem_map_fst_of_kvGet_some ls k v hv, hpre⟩) hmem
  · intro hpre
    have hmem : k ∉ (ls.map Prod.fst).filter (fun key => jsStartsWith key CACHE_NS) := by
      intro hmem
      have := (List.mem_filter.mp hmem).2
      rw [hpre] at this
      exact Bool.false_ne_true this
    simp [hmem]

/-- Witness for claim C8 on a concrete store holding one namespaced key
and one unrelated key. -/
theorem claim_C8_clearAll_frame_witness :
    (jsStartsWith "hypercave_x" CACHE_NS = true) ∧
    (jsStartsWith "other" CACHE_NS = false) ∧
    kvGet (cacheClearAll [("hypercave_x", 1), ("other", 2)]) "hypercave_x" = none ∧
    kvGet (cacheClearAll [("hypercave_x", 1), ("other", 2)]) "other"
      = kvGet [("hypercave_x", 1), ("other", 2)] "other" :=
  ⟨rfl, rfl,
   (claim_C8_clearAll_frame [("hypercave_x", 1), ("other", 2)] "hypercave_x").1 rfl,
   (claim_C8_clearAll_frame [("hypercave_x", 1), ("other", 2)] "other").2 rfl⟩

/-! ### Decimal rendering of JavaScript numeric indices

The manifest builder names buckets `bucket_${index}`; the embedding uses
`Nat.repr` for the decimal rendering of the index.  The following
development proves `Nat.repr` injective, which gives the pairwise
distinctness of bucket names. -/

/-- Decimal digits of `n`, most significant first. -/
def decDigits (n : Nat) : List Char :=
  if n < 10 then [Nat.digitChar n]
  else decDigits (n / 10) ++ [Nat.digitChar (n % 10)]
termination_by n
decreasing_by
  exact Nat.div_lt_self (by omega) (by omega)

theorem toDigitsCore_eq_decDigits :
    ∀ (n f : Nat) (l : List Char), n < f →
      Nat.toDigitsCore 10 f n l = decDigits n ++ l := by
  intro n
  induction n using Nat.strong_induction_on with
  | _ n ih =>
    intro f l hf
    cases f with
    | zero => omega
    | succ f =>
        simp only [Nat.toDigitsCore]
        by_cases h10 : n < 10
        · have hdiv : n / 10 = 0 := Nat.div_eq_of_lt h10
          rw [if_pos hdiv, decDigits, if_pos h10, Nat.mod_eq_of_lt h10]
          rfl
        · have hdiv : n / 10 ≠ 0 := by
            intro h0
            have := (Nat.div_eq_zero_iff (by omega : 0 < 10)).mp h0
            omega
          rw [if_neg hdiv]
          have hlt : n / 10 < n := Nat.div_lt_self (by omega) (by omega)
          rw [ih (n / 10) hlt f (Nat.digitChar (n % 10) :: l)
            (Nat.lt_of_lt_of_le hlt (Nat.le_of_lt_succ hf))]
          conv_rhs => rw [decDigits]
          rw [if_neg h10]
          simp [List.append_assoc]

theorem decDigits_eq (n : Nat) :
    decDigits n =
      if n < 10 then [Nat.digitChar n]
      else decDigits (n / 10) ++ [Nat.digitChar (n % 10)] := by
  rw [decDigits]

theorem decDigits_ne_nil (n : Nat) : decDigits n ≠ [] := by
  rw [decDigits]
  by_cases h : n < 10 <;> simp [h]

theorem digitChar_inj_of_lt :
    ∀ a < 10, ∀ b < 10, Nat.digitChar a = Nat.digitChar b → a = b := by decide

theorem decDigits_inj : ∀ m n : Nat, decDigits m = decDigits n → m = n := by
  intro m
  induction m using Nat.strong_induction_on with
  | _ m ih =>
    intro n h
    by_cases hm : m < 10 <;> by_cases hn : n < 10
    · rw [decDigits_eq m, if_pos hm, decDigits_eq n, if_pos hn] at h
      injection h with h1 _
      exact digitChar_inj_of_lt m hm n hn h1
    · exfalso
      rw [decDigits_eq m, if_pos hm, decDigits_eq n, if_neg hn] at h
      have hlen := congrArg List.length h
      simp only [List.length_singleton, List.length_append] at hlen
      have h0 : (decDigits (n / 10)).length = 0 := by omega
      exact decDigits_ne_nil (n / 10) (List.length_eq_zero.mp h0)
    · exfalso
      rw [decDigits_eq m, if_neg hm, decDigits_eq n, if_pos hn] at h
      have hlen := congrArg List.length h
      simp only [List.length_singleton, List.length_append] at hlen
      have h0 : (decDigits (m / 10)).length = 0 := by omega
      exact decDigits_ne_nil (m / 10) (List.length_eq_zero.mp h0)
    · rw [decDigits_eq m, if_neg hm, decDigits_eq n, if_neg hn] at h
      have h' := congrArg List.reverse h
      simp only [List.reverse_append, List.reverse_cons, List.reverse_nil,
        List.nil_append, List.singleton_append] at h'
      injection h' with h1 h2
      have hmod : m % 10 = n % 10 :=
        digitChar_inj_of_lt (m % 10) (Nat.mod_lt m (by omega)) (n % 10)
          (Nat.mod_lt n (by omega)) h1
      have hdiv : m / 10 = n / 10 :=
        ih (m / 10) (Nat.div_lt_self (by omega) (by omega)) (n / 10)
          (List.reverse_injective h2)
      have hm10 := Nat.div_add_mod m 10
      have hn10 := Nat.div_add_mod n 10
      omega

theorem natRepr_inj {m n : Nat} (h : Nat.repr m = Nat.repr n) : m = n := by
  apply decDigits_inj
  have h1 : Nat.toDigits 10 m = Nat.toDigits 10 n := by
    unfold Nat.repr at h
    exact List.asString_inj.mp h
  unfold Nat.toDigits at h1
  rw [toDigitsCore_eq_decDigits m (m + 1) [] (Nat.lt_succ_self m),
      toDigitsCore_eq_decDigits n (n + 1) [] (Nat.lt_succ_self n),
      List.append_nil, List.append_nil] at h1
  exact h1

/-! ### Manifest builders (manifests.js)

The three builders render transaction-manifest strings from structured
inputs by template splicing; they are embedded as string concatenations
with `Date`-free, pure semantics.  `resources.forEach((r, i) => m += …)`
becomes a `foldl` over `List.enum`, `map and join with a comma separator` becomes
`String.intercalate ", "` over `List.map`, and the final `.trim()` is
`String.trim`. -/

/-- A `{resourceAddress, amount}` element of the input lists of the builders
(amounts are decimal strings, passed through verbatim). -/
structure CaveResource where
  resourceAddress : String
  amount : String
deriving DecidableEq, Repr

/-- Modelled from the spec: `config.js` is not among the given source
files; spec section 2 describes Config as static constants including
the target component address.  The builders only splice
`CONFIG.componentAddress` verbatim, so it is modelled as a fixed
constant string whose value the claims do not depend on. -/
structure Config where
  componentAddress : String
deriving DecidableEq, Repr

/-- Modelled from the spec: the static configuration constant. -/
def CONFIG : Config := ⟨"component_tdx_hypercave"⟩

/-- Embeds `buildInCaveManifest` (manifests.js lines 34-83). -/
def buildInCaveManifest (accountAddress nftCollection nftId : String)
    (resources : List CaveResource) : String :=
  let manifest :=
    "\nCALL_METHOD\n  Address(\"" ++ accountAddress ++
    "\")\n  \"create_proof_of_non_fungibles\"\n  Address(\"" ++ nftCollection ++
    "\")\n  Array<NonFungibleLocalId>(NonFungibleLocalId(\"" ++ nftId ++
    "\"))\n;\n\nPOP_FROM_AUTH_ZONE\n  Proof(\"nft_proof\")\n;\n"
  let manifest := resources.enum.foldl (fun m p =>
    m ++ "\nCALL_METHOD\n  Address(\"" ++ accountAddress ++
    "\")\n  \"withdraw\"\n  Address(\"" ++ p.2.resourceAddress ++
    "\")\n  Decimal(\"" ++ p.2.amount ++
    "\")\n;\n\nTAKE_FROM_WORKTOP\n  Address(\"" ++ p.2.resourceAddress ++
    "\")\n  Decimal(\"" ++ p.2.amount ++
    "\")\n  Bucket(\"bucket_" ++ Nat.repr p.1 ++ "\")\n;\n") manifest
  let bucketArray := String.intercalate ", "
    (resources.enum.map (fun p => "Bucket(\"bucket_" ++ Nat.repr p.1 ++ "\")"))
  let manifest := manifest ++
    "\nCALL_METHOD\n  Address(\"" ++ CONFIG.componentAddress ++
    "\")\n  \"in_cave\"\n  Proof(\"nft_proof\")\n  Array<Bucket>(" ++ bucketArray ++
    ")\n;\n"
  manifest.trim

/-- Embeds `buildOutCaveManifest` (manifests.js lines 94-127). -/
def buildOutCaveManifest (accountAddress nftCollection nftId : String)
    (withdrawals : List CaveResource) : String :=
  let withdrawalTuples := String.intercalate ", "
    (withdrawals.map (fun w =>
      "Tuple(Address(\"" ++ w.resourceAddress ++ "\"), Decimal(\"" ++ w.amount ++ "\"))"))
  let manifest :=
    "\nCALL_METHOD\n  Address(\"" ++ accountAddress ++
    "\")\n  \"create_proof_of_non_fungibles\"\n  Address(\"" ++ nftCollection ++
    "\")\n  Array<NonFungibleLocalId>(NonFungibleLocalId(\"" ++ nftId ++
    "\"))\n;\n\nPOP_FROM_AUTH_ZONE\n  Proof(\"nft_proof\")\n;\n\nCALL_METHOD\n  Address(\"" ++
    CONFIG.componentAddress ++
    "\")\n  \"out_cave\"\n  Proof(\"nft_proof\")\n  Array<Tuple>(" ++ withdrawalTuples ++
    ")\n;\n\nCALL_METHOD\n  Address(\"" ++ accountAddress ++
    "\")\n  \"deposit_batch\"\n  Expression(\"ENTIRE_WORKTOP\")\n;\n"
  manifest.trim

/-- Embeds `buildLookCaveManifest` (manifests.js lines 138-165). -/
def buildLookCaveManifest (accountAddress nftCollection nftId : String)
    (resourceAddresses : List String) : String :=
  let addressArray := String.intercalate ", "
    (resourceAddresses.map (fun addr => "Address(\"" ++ addr ++ "\")"))
  let manifest :=
    "\nCALL_METHOD\n  Address(\"" ++ accountAddress ++
    "\")\n  \"create_proof_of_non_fungibles\"\n  Address(\"" ++ nftCollection ++
    "\")\n  Array<NonFungibleLocalId>(NonFungibleLocalId(\"" ++ nftId ++
    "\"))\n;\n\nPOP_FROM_AUTH_ZONE\n  Proof(\"nft_proof\")\n;\n\nCALL_METHOD\n  Address(\"" ++
    CONFIG.componentAddress ++
    "\")\n  \"query_balances\"\n  Proof(\"nft_proof\")\n  Array<Address>(" ++ addressArray ++
    ")\n;\n"
  manifest.trim

/-! ### Specification-side manifest structure

The following definitions restate the manifests the way the spec
describes them: as an ordered sequence of statements (proof-creation
preamble, per-resource blocks, component call, final deposit), with the
argument lists rendered one element per input element in input order.
The claim theorems prove the builders equal to these renderings. -/

/-- The create-proof-of-non-fungibles statement against the given
collection and local id. -/
def createProofStmt (accountAddress nftCollection nftId : String) : String :=
  "\nCALL_METHOD\n  Address(\"" ++ accountAddress ++
  "\")\n  \"create_proof_of_non_fungibles\"\n  Address(\"" ++ nftCollection ++
  "\")\n  Array<NonFungibleLocalId>(NonFungibleLocalId(\"" ++ nftId ++
  "\"))\n;\n"

/-- The proof pop into the named proof slot. -/
def popProofStmt : String :=
  "\nPOP_FROM_AUTH_ZONE\n  Proof(\"nft_proof\")\n;\n"

/-- The proof-creation preamble shared by all three manifests. -/
def proofPreambleSpec (accountAddress nftCollection nftId : String) : String :=
  createProofStmt accountAddress nftCollection nftId ++ popProofStmt

/-- The bucket name derived from the position index of a resource. -/
def bucketNameSpec (i : Nat) : String := "bucket_" ++ Nat.repr i

/-- The withdraw-from-account statement for one resource. -/
def withdrawStmtSpec (accountAddress : String) (r : CaveResource) : String :=
  "\nCALL_METHOD\n  Address(\"" ++ accountAddress ++
  "\")\n  \"withdraw\"\n  Address(\"" ++ r.resourceAddress ++
  "\")\n  Decimal(\"" ++ r.amount ++ "\")\n;\n"

/-- The take-from-worktop statement filling the bucket named after the
position index of the resource. -/
def takeStmtSpec (r : CaveResource) (i : Nat) : String :=
  "\nTAKE_FROM_WORKTOP\n  Address(\"" ++ r.resourceAddress ++
  "\")\n  Decimal(\"" ++ r.amount ++
  "\")\n  Bucket(\"" ++ bucketNameSpec i ++ "\")\n;\n"

/-- For each resource in input order, a withdraw statement followed by
a take statement, with position indices counting up from `i`. -/
def inCaveBlocksSpec (accountAddress : String) : Nat → List CaveResource → String
  | _, [] => ""
  | i, r :: rs =>
      withdrawStmtSpec accountAddress r ++ takeStmtSpec r i ++
      inCaveBlocksSpec accountAddress (i + 1) rs

/-- The bucket reference for position index `i`. -/
def bucketRefSpec (i : Nat) : String :=
  "Bucket(\"" ++ bucketNameSpec i ++ "\")"

/-- The ordered list of bucket references, one per resource in input
order, indices counting up from `i`. -/
def bucketRefsSpec : Nat → List CaveResource → List String
  | _, [] => []
  | i, _ :: rs => bucketRefSpec i :: bucketRefsSpec (i + 1) rs

/-- Comma-separated rendering of an argument list. -/
def commaSep : List String → String
  | [] => ""
  | [s] => s
  | s :: rest => s ++ ", " ++ commaSep rest

/-- The single call to the deposit entrypoint of the component, passing the
proof and the bucket references. -/
def inCaveCallStmt (buckets : String) : String :=
  "\nCALL_METHOD\n  Address(\"" ++ CONFIG.componentAddress ++
  "\")\n  \"in_cave\"\n  Proof(\"nft_proof\")\n  Array<Bucket>(" ++ buckets ++
  ")\n;\n"

/-- The deposit manifest as claim C3 describes it: preamble, then the
per-resource blocks in input order, then one call to the deposit
entrypoint with the ordered bucket references. -/
def inCaveManifestSpec (accountAddress nftCollection nftId : String)
    (rs : List CaveResource) : String :=
  (proofPreambleSpec accountAddress nftCollection nftId ++
   inCaveBlocksSpec accountAddress 0 rs ++
   inCaveCallStmt (commaSep (bucketRefsSpec 0 rs))).trim

/-- The single call to the withdraw entrypoint of the component, passing the
proof and the tuple array. -/
def outCaveCallStmt (tuples : String) : String :=
  "\nCALL_METHOD\n  Address(\"" ++ CONFIG.componentAddress ++
  "\")\n  \"out_cave\"\n  Proof(\"nft_proof\")\n  Array<Tuple>(" ++ tuples ++
  ")\n;\n"

/-- The final statement depositing the entire worktop back to the
account. -/
def depositBatchStmt (accountAddress : String) : String :=
  "\nCALL_METHOD\n  Address(\"" ++ accountAddress ++
  "\")\n  \"deposit_batch\"\n  Expression(\"ENTIRE_WORKTOP\")\n;\n"

/-- The `(resourceAddress, amount)` tuple for one withdrawal, the
amount string embedded unmodified. -/
def tupleSpec (w : CaveResource) : String :=
  "Tuple(Address(\"" ++ w.resourceAddress ++ "\"), Decimal(\"" ++ w.amount ++ "\"))"

/-- Exactly one tuple per input element, in input order. -/
def tuplesSpec : List CaveResource → List String
  | [] => []
  | w :: ws => tupleSpec w :: tuplesSpec ws

/-- The withdrawal manifest as claim C4 describes it: the same proof
preamble, one call to the withdraw entrypoint with the ordered tuple
array, then the deposit-everything statement. -/
def outCaveManifestSpec (accountAddress nftCollection nftId : String)
    (ws : List CaveResource) : String :=
  (proofPreambleSpec accountAddress nftCollection nftId ++
   outCaveCallStmt (commaSep (tuplesSpec ws)) ++
   depositBatchStmt accountAddress).trim

/-- The single call to the balance-query entrypoint of the component. -/
def queryBalancesStmt (addrs : String) : String :=
  "\nCALL_METHOD\n  Address(\"" ++ CONFIG.componentAddress ++
  "\")\n  \"query_balances\"\n  Proof(\"nft_proof\")\n  Array<Address>(" ++ addrs ++
  ")\n;\n"

/-- The address references, one per input address, in input order. -/
def addressRefsSpec : List String → List String
  | [] => []
  | a :: as => ("Address(\"" ++ a ++ "\")") :: addressRefsSpec as

/-- The statements of the balance-query manifest as claim C5 describes
them: exactly the proof-creation preamble (create-proof call plus proof
pop) and one call to the balance-query entrypoint; no withdraw, deposit
or take statement. -/
def lookCaveStatementsSpec (accountAddress nftCollection nftId : String)
    (addrs : List String) : List String :=
  [createProofStmt accountAddress nftCollection nftId,
   popProofStmt,
   queryBalancesStmt (commaSep (addressRefsSpec addrs))]

/-! ### Literal-regrouping lemmas

The source templates splice several statements inside one string
literal; the spec-side renderings split at statement boundaries.  These
lemmas merge adjacent literals (each is an instance of associativity
plus a literal computation). -/

theorem mergePop (x : String) :
    "\"))\n;\n" ++ ("\nPOP_FROM_AUTH_ZONE\n  Proof(\"nft_proof\")\n;\n" ++ x)
      = "\"))\n;\n\nPOP_FROM_AUTH_ZONE\n  Proof(\"nft_proof\")\n;\n" ++ x := by
  rw [← String.append_assoc]
  rfl

theorem mergePopCall (x : String) :
    "\"))\n;\n\nPOP_FROM_AUTH_ZONE\n  Proof(\"nft_proof\")\n;\n" ++
      ("\nCALL_METHOD\n  Address(\"" ++ x)
    = "\"))\n;\n\nPOP_FROM_AUTH_ZONE\n  Proof(\"nft_proof\")\n;\n\nCALL_METHOD\n  Address(\"" ++ x := by
  rw [← String.append_assoc]
  rfl

theorem mergeTake (x : String) :
    "\")\n;\n" ++ ("\nTAKE_FROM_WORKTOP\n  Address(\"" ++ x)
      = "\")\n;\n\nTAKE_FROM_WORKTOP\n  Address(\"" ++ x := by
  rw [← String.append_assoc]
  rfl

theorem mergeBucket (x : String) :
    "\")\n  Bucket(\"" ++ ("bucket_" ++ x) = "\")\n  Bucket(\"bucket_" ++ x := by
  rw [← String.append_assoc]
  rfl

theorem mergeBucketRef (x : String) :
    "Bucket(\"" ++ ("bucket_" ++ x) = "Bucket(\"bucket_" ++ x := by
  rw [← String.append_assoc]
  rfl

theorem mergeDeposit (x : String) :
    ")\n;\n" ++ ("\nCALL_METHOD\n  Address(\"" ++ x)
      = ")\n;\n\nCALL_METHOD\n  Address(\"" ++ x := by
  rw [← String.append_assoc]
  rfl

/-! ### Bridges between the builder combinators and the spec renderings -/

/-- Tail of a comma-separated rendering. -/
def commaSepTail : List String → String
  | [] => ""
  | a :: as => ", " ++ a ++ commaSepTail as

theorem intercalate_go_eq (l : List String) :
    ∀ acc : String, String.intercalate.go acc ", " l = acc ++ commaSepTail l := by
  induction l with
  | nil => intro acc; simp [String.intercalate.go, commaSepTail]
  | cons a as ih =>
      intro acc
      simp only [String.intercalate.go, commaSepTail]
      rw [ih]
      simp [String.append_assoc]

theorem commaSep_cons_eq (a : String) (l : List String) :
    commaSep (a :: l) = a ++ commaSepTail l := by
  induction l generalizing a with
  | nil => simp [commaSep, commaSepTail]
  | cons b bs ih =>
      simp only [commaSep, commaSepTail]
      rw [ih b]
      simp [String.append_assoc]

theorem intercalate_eq_commaSep (l : List String) :
    String.intercalate ", " l = commaSep l := by
  cases l with
  | nil => rfl
  | cons a as =>
      rw [show String.intercalate ", " (a :: as) = String.intercalate.go a ", " as from rfl,
          intercalate_go_eq as a, ← commaSep_cons_eq a as]

theorem enumFrom_foldl_inCaveBlocks (acc : String) (rs : List CaveResource) :
    ∀ (i : Nat) (init : String),
      (List.enumFrom i rs).foldl (fun m p =>
        m ++ "\nCALL_METHOD\n  Address(\"" ++ acc ++
        "\")\n  \"withdraw\"\n  Address(\"" ++ p.2.resourceAddress ++
        "\")\n  Decimal(\"" ++ p.2.amount ++
        "\")\n;\n\nTAKE_FROM_WORKTOP\n  Address(\"" ++ p.2.resourceAddress ++
        "\")\n  Decimal(\"" ++ p.2.amount ++
        "\")\n  Bucket(\"bucket_" ++ Nat.repr p.1 ++ "\")\n;\n") init
      = init ++ inCaveBlocksSpec acc i rs := by
  induction rs with
  | nil => intro i init; simp [List.enumFrom, inCaveBlocksSpec]
  | cons r rs ih =>
      intro i init
      simp only [List.enumFrom, List.foldl_cons]
      rw [ih (i + 1)]
      simp only [inCaveBlocksSpec, withdrawStmtSpec, takeStmtSpec, bucketNameSpec]
      simp [String.append_assoc, mergeTake, mergeBucket]

theorem enumFrom_map_bucketRefs (rs : List CaveResource) :
    ∀ i : Nat,
      (List.enumFrom i rs).map (fun p => "Bucket(\"bucket_" ++ Nat.repr p.1 ++ "\")")
        = bucketRefsSpec i rs := by
  induction rs with
  | nil => intro i; rfl
  | cons r rs ih =>
      intro i
      rw [show List.enumFrom i (r :: rs) = (i, r) :: List.enumFrom (i + 1) rs from rfl,
          List.map_cons, ih (i + 1)]
      simp only [bucketRefsSpec, bucketRefSpec, bucketNameSpec]
      simp [String.append_assoc, mergeBucketRef]

theorem map_tuplesSpec (ws : List CaveResource) :
    ws.map (fun w =>
        "Tuple(Address(\"" ++ w.resourceAddress ++ "\"), Decimal(\"" ++ w.amount ++ "\"))")
      = tuplesSpec ws := by
  induction ws with
  | nil => rfl
  | cons w ws ih => simp [tuplesSpec, tupleSpec, ih]

theorem map_addressRefs (as : List String) :
    as.map (fun addr => "Address(\"" ++ addr ++ "\")") = addressRefsSpec as := by
  induction as with
  | nil => rfl
  | cons a as ih => simp [addressRefsSpec, ih]

theorem tuplesSpec_length (ws : List CaveResource) :
    (tuplesSpec ws).length = ws.length := by
  induction ws with
  | nil => rfl
  | cons w ws ih => simp [tuplesSpec, ih]

theorem bucketNameSpec_inj (i j : Nat) (h : i ≠ j) :
    bucketNameSpec i ≠ bucketNameSpec j := by
  intro heq
  apply h
  apply natRepr_inj
  have hd := congrArg String.data heq
  simp only [bucketNameSpec, String.data_append] at hd
  exact String.ext (List.append_cancel_left hd)

/-! ### Claims C3, C4, C5: manifest structure -/

/-- Claim C3: for every non-empty resource list, the deposit manifest
consists, in this order, of the create-proof call against the given
collection/id, the proof pop, then for each resource in input order a
withdraw statement followed by a take statement into the bucket named
by the position index of the resource (`bucket_0`, `bucket_1`, …), and a
single final call to the deposit entrypoint of the component passing the
proof and exactly the ordered bucket references; bucket names are
pairwise distinct. -/
theorem claim_C3_inCave_manifest_structure (acc coll id : String)
    (rs : List CaveResource) (h : rs ≠ []) :
    buildInCaveManifest acc coll id rs = inCaveManifestSpec acc coll id rs ∧
    (∀ i j : Nat, i ≠ j → bucketNameSpec i ≠ bucketNameSpec j) := by
  constructor
  · unfold buildInCaveManifest inCaveManifestSpec
    apply congrArg String.trim
    rw [show rs.enum = List.enumFrom 0 rs from rfl,
        enumFrom_foldl_inCaveBlocks acc rs 0,
        enumFrom_map_bucketRefs rs 0,
        intercalate_eq_commaSep]
    simp only [proofPreambleSpec, createProofStmt, popProofStmt, inCaveCallStmt]
    simp [String.append_assoc, mergePop]
  · exact bucketNameSpec_inj

/-- Witness for claim C3 on the two-resource input from the example in the spec (`[{A,"10"},{B,"5"}]`). -/
theorem claim_C3_inCave_manifest_structure_witness :
    ([⟨"resA", "10"⟩, ⟨"resB", "5"⟩] : List CaveResource) ≠ [] ∧
    (buildInCaveManifest "acct" "coll" "nftid" [⟨"resA", "10"⟩, ⟨"resB", "5"⟩]
       = inCaveManifestSpec "acct" "coll" "nftid" [⟨"resA", "10"⟩, ⟨"resB", "5"⟩] ∧
     (∀ i j : Nat, i ≠ j → bucketNameSpec i ≠ bucketNameSpec j)) :=
  ⟨by decide,
   claim_C3_inCave_manifest_structure "acct" "coll" "nftid"
     [⟨"resA", "10"⟩, ⟨"resB", "5"⟩] (by decide)⟩

/-- Claim C4: for every non-empty withdrawal list, the withdrawal
manifest is the proof-creation preamble, then a single call to the
withdraw entrypoint of the component passing the proof and one array
argument holding exactly one `(resourceAddress, amount)` tuple per input
element, in input order with each amount string unmodified, followed by
a final statement depositing the entire worktop back to the account. -/
theorem claim_C4_outCave_manifest_structure (acc coll id : String)
    (ws : List CaveResource) (h : ws ≠ []) :
    buildOutCaveManifest acc coll id ws = outCaveManifestSpec acc coll id ws ∧
    (tuplesSpec ws).length = ws.length := by
  constructor
  · unfold buildOutCaveManifest outCaveManifestSpec
    apply congrArg String.trim
    rw [map_tuplesSpec, intercalate_eq_commaSep]
    simp only [proofPreambleSpec, createProofStmt, popProofStmt, outCaveCallStmt,
      depositBatchStmt]
    simp [String.append_assoc, mergePop, mergePopCall, mergeDeposit]
  · exact tuplesSpec_length ws

/-- Witness for claim C4 on the example input from the spec
(`[{A,"10"},{B,"5"}]`). -/
theorem claim_C4_outCave_manifest_structure_witness :
    ([⟨"resA", "10"⟩, ⟨"resB", "5"⟩] : List CaveResource) ≠ [] ∧
    (buildOutCaveManifest "acct" "coll" "nftid" [⟨"resA", "10"⟩, ⟨"resB", "5"⟩]
       = outCaveManifestSpec "acct" "coll" "nftid" [⟨"resA", "10"⟩, ⟨"resB", "5"⟩] ∧
     (tuplesSpec [⟨"resA", "10"⟩, ⟨"resB", "5"⟩]).length
       = ([⟨"resA", "10"⟩, ⟨"resB", "5"⟩] : List CaveResource).length) :=
  ⟨by decide,
   claim_C4_outCave_manifest_structure "acct" "coll" "nftid"
     [⟨"resA", "10"⟩, ⟨"resB", "5"⟩] (by decide)⟩

/-- Claim C5: for every input, the balance-query manifest consists of
exactly three statements — the create-proof call, the proof pop, and
one call to the balance-query entrypoint of the component with the address
list in input order — so it contains no withdraw, deposit or take
statement. -/
theorem claim_C5_lookCave_manifest_statements (acc coll id : String)
    (addrs : List String) :
    buildLookCaveManifest acc coll id addrs
      = (String.join (lookCaveStatementsSpec acc coll id addrs)).trim := by
  unfold buildLookCaveManifest lookCaveStatementsSpec
  apply congrArg String.trim
  rw [map_addressRefs, intercalate_eq_commaSep]
  simp only [String.join, List.foldl, createProofStmt, popProofStmt, queryBalancesStmt]
  simp [String.append_assoc, mergePop, mergePopCall]

/-! ### Claim C9: controller guard and empty-list builder output -/

/-- Transaction mode carried by the modal data (the JavaScript strings "in" and "out"). -/
inductive TxMode where
  | inCave : TxMode
  | outCave : TxMode
deriving DecidableEq, Repr

/-- The NFT selection `{collection, id}` passed from the modal. -/
structure NftRef where
  collection : String
  id : String
deriving DecidableEq, Repr

/-- A resource row from the modal (main.js passes
`resourceAddress`/`amount` to the builders and keeps
`symbol`/`iconUrl` for the cache). -/
structure UiResource where
  resourceAddress : String
  amount : String
  symbol : String
  iconUrl : Option String
deriving DecidableEq, Repr

/-- The manifest-construction decision of `handleTransaction`
(main.js lines 182-217): return without building anything when no
account is connected, no NFT is selected, or the resource list is
empty; otherwise build the manifest for the mode from the mapped
`{resourceAddress, amount}` list. -/
def handleTransactionManifest (currentAccount : Option String)
    (nft : Option NftRef) (mode : TxMode) (resources : List UiResource) :
    Option String :=
  match currentAccount, nft with
  | some account, some n =>
      if resources.length = 0 then none
      else some (match mode with
        | TxMode.inCave =>
            buildInCaveManifest account n.collection n.id
              (resources.map (fun r => ⟨r.resourceAddress, r.amount⟩))
        | TxMode.outCave =>
            buildOutCaveManifest account n.collection n.id
              (resources.map (fun r => ⟨r.resourceAddress, r.amount⟩)))
  | _, _ => none

/-- The manifest-construction decision of `handleLookup`
(main.js lines 288-308): same guard, then the balance-query manifest
over the mapped address list. -/
def handleLookupManifest (currentAccount : Option String)
    (nft : Option NftRef) (resources : List UiResource) : Option String :=
  match currentAccount, nft with
  | some account, some n =>
      if resources.length = 0 then none
      else some (buildLookCaveManifest account n.collection n.id
        (resources.map (fun r => r.resourceAddress)))
  | _, _ => none

/-- Claim C9: with an empty resource/withdrawal/address list, the
controller rejects all three operations before any manifest is
constructed, and each builder called directly with an empty list
produces a well-formed manifest whose component call carries an empty
array literal (`Array<Bucket>()`, `Array<Tuple>()`,
`Array<Address>()`). -/
theorem claim_C9_empty_list_policy (acct : Option String) (nft : Option NftRef)
    (mode : TxMode) (a c i : String) :
    handleTransactionManifest acct nft mode [] = none ∧
    handleLookupManifest acct nft [] = none ∧
    buildInCaveManifest a c i [] =
      ("\nCALL_METHOD\n  Address(\"" ++ a ++
       "\")\n  \"create_proof_of_non_fungibles\"\n  Address(\"" ++ c ++
       "\")\n  Array<NonFungibleLocalId>(NonFungibleLocalId(\"" ++ i ++
       "\"))\n;\n\nPOP_FROM_AUTH_ZONE\n  Proof(\"nft_proof\")\n;\n\nCALL_METHOD\n  Address(\"" ++
       CONFIG.componentAddress ++
       "\")\n  \"in_cave\"\n  Proof(\"nft_proof\")\n  Array<Bucket>()\n;\n").trim ∧
    buildOutCaveManifest a c i [] =
      ("\nCALL_METHOD\n  Address(\"" ++ a ++
       "\")\n  \"create_proof_of_non_fungibles\"\n  Address(\"" ++ c ++
       "\")\n  Array<NonFungibleLocalId>(NonFungibleLocalId(\"" ++ i ++
       "\"))\n;\n\nPOP_FROM_AUTH_ZONE\n  Proof(\"nft_proof\")\n;\n\nCALL_METHOD\n  Address(\"" ++
       CONFIG.componentAddress ++
       "\")\n  \"out_cave\"\n  Proof(\"nft_proof\")\n  Array<Tuple>()\n;\n\nCALL_METHOD\n  Address(\"" ++
       a ++
       "\")\n  \"deposit_batch\"\n  Expression(\"ENTIRE_WORKTOP\")\n;\n").trim ∧
    buildLookCaveManifest a c i [] =
      ("\nCALL_METHOD\n  Address(\"" ++ a ++
       "\")\n  \"create_proof_of_non_fungibles\"\n  Address(\"" ++ c ++
       "\")\n  Array<NonFungibleLocalId>(NonFungibleLocalId(\"" ++ i ++
       "\"))\n;\n\nPOP_FROM_AUTH_ZONE\n  Proof(\"nft_proof\")\n;\n\nCALL_METHOD\n  Address(\"" ++
       CONFIG.componentAddress ++
       "\")\n  \"query_balances\"\n  Proof(\"nft_proof\")\n  Array<Address>()\n;\n").trim := by
  refine ⟨?_, ?_, ?_, ?_, ?_⟩
  · cases acct <;> cases nft <;> simp [handleTransactionManifest]
  · cases acct <;> cases nft <;> simp [handleLookupManifest]
  · unfold buildInCaveManifest
    apply congrArg String.trim
    simp [String.append_assoc, String.intercalate]
  · unfold buildOutCaveManifest
    apply congrArg String.trim
    simp [String.append_assoc, String.intercalate]
  · unfold buildLookCaveManifest
    apply congrArg String.trim
    simp [String.append_assoc, String.intercalate]

end Hypercave
